import Mathlib

/-!
Verification of the generic DB-object layer (`src/db_object.py`, class `DBObject`).

The Python code is shallowly embedded: a table's content is an explicit list of
rows, a session-scoped query is a function from that list to the filtered list,
and SQL aggregate execution (`.scalar()`) is evaluation of an aggregate function
over the selected column values of the filtered rows.  Python `None` is
`Option.none`; `dict` is an association list whose keys are unique; operations
that can raise (`KeyError` from `values_dict[...]`, `MultipleResultsFound` from
`.one_or_none()`) return `Except`.
-/

namespace DbObject

/-! ## Schema introspection (`setup_table_vars`, lines 46-63) -/

/-- One column of a table's schema: its name, whether it carries the
`primary_key` flag, and whether its type is one of `DateTime`, `Date`, `Time`
(the `isinstance` test on line 52/57). -/
structure TblColumn where
  name : String
  primary_key : Bool
  is_time : Bool
deriving DecidableEq, Repr

/-- Embeds `DBObject.setup_table_vars` (lines 46-63): one pass over the declared
columns setting `get_col_name` for each primary-key column (no `break`, so the
last one wins) and `time_col_name` for each primary-key column of date/time
type; then, if `time_col_name` is still `None`, a second pass adopting the
first date/time-typed column (`break` on line 60).  Both class attributes start
as `None` (lines 27-28).  Returns `(get_col_name, time_col_name)`. -/
def setup_table_vars (cols : List TblColumn) : Option String × Option String :=
  let p := cols.foldl
    (fun (p : Option String × Option String) col =>
      if col.primary_key then
        (some col.name, if col.is_time then some col.name else p.2)
      else p)
    (none, none)
  match p.2 with
  | some t => (p.1, some t)
  | none => (p.1, (cols.find? (fun c => c.is_time)).map TblColumn.name)

/-! ## Session-scoped query building (`during`/`after`/`before`, `s_query`) -/

/-- Embeds `during` (lines 82-90): `start_ts <= time_col and time_col < end_ts`. -/
def during (ts start_ts end_ts : Nat) : Bool :=
  decide (start_ts ≤ ts) && decide (ts < end_ts)

/-- Embeds `after` (lines 92-101): `time_col >= start_ts`. -/
def after (ts start_ts : Nat) : Bool :=
  decide (start_ts ≤ ts)

/-- Embeds `before` (lines 103-111): `time_col < end_ts`. -/
def before (ts end_ts : Nat) : Bool :=
  decide (ts < end_ts)

/-- Embeds `DBObject.s_query` (lines 346-359), as the set of rows the built query
ranges over.  `time_col` projects the record type's temporal column out of a
row.  The window filter: both bounds -> `during`, only `start_ts` -> `after`,
only `end_ts` -> `before`; then, if `ignore_le_zero_col` is supplied, the
filter `ignore_le_zero_col > 0`.  The `order_by` argument (always `None` on
the aggregate paths modelled here) only reorders rows and is not modelled. -/
def s_query {α : Type} (time_col : α → Nat) (rows : List α)
    (start_ts end_ts : Option Nat) (ignore_le_zero_col : Option (α → Int)) :
    List α :=
  let windowed :=
    match start_ts, end_ts with
    | some s, some e => rows.filter (fun r => during (time_col r) s e)
    | some s, none => rows.filter (fun r => after (time_col r) s)
    | none, some e => rows.filter (fun r => before (time_col r) e)
    | none, none => rows
  match ignore_le_zero_col with
  | some c => windowed.filter (fun r => decide (0 < c r))
  | none => windowed

/-! ## SQL aggregate functions

`func.sum` / `func.avg` / `func.min` / `func.max` applied to the selected
column of the matched rows and read back with `.scalar()`: over zero rows an
SQL aggregate returns NULL (`none`); `avg` is the exact arithmetic mean. -/

inductive AggFn where
  | sum
  | avg
  | min
  | max
deriving DecidableEq, Repr

/-- Evaluate an SQL aggregate over the selected values of the matched rows. -/
def evalAgg (fn : AggFn) (xs : List Int) : Option Rat :=
  match xs with
  | [] => none
  | x :: rest =>
    match fn with
    | .sum => some (((x :: rest).foldl (· + ·) 0 : Int) : Rat)
    | .avg => some ((((x :: rest).foldl (· + ·) 0 : Int) : Rat) / ((x :: rest).length : Rat))
    | .min => some ((rest.foldl Min.min x : Int) : Rat)
    | .max => some ((rest.foldl Max.max x : Int) : Rat)

/-! ## Scalar column aggregates (`s_get_col_func_query` and friends) -/

/-- A row as seen by the single-column aggregate queries: the temporal column
`ts` and the selected column `val`. -/
structure SRow where
  ts : Nat
  val : Int
deriving DecidableEq, Repr

/-- The `ignore_le_zero` argument of `s_get_col_func_query` (line 405) is
dynamically typed in the source: `s_get_col_max` passes the caller's boolean
through (line 439), while `s_get_col_avg`/`s_get_col_min` pass
`col if ignore_le_zero else None` (lines 417, 428), i.e. the column object
itself or `None`. -/
inductive LeZeroArg where
  | pyNone
  | pyBool (b : Bool)
  | pyCol
deriving DecidableEq, Repr

/-- Python truthiness of the dynamically typed argument: `None` and `False`
are falsy, `True` and a (non-`None`) column object are truthy. -/
def LeZeroArg.truthy : LeZeroArg → Bool
  | .pyNone => false
  | .pyBool b => b
  | .pyCol => true

/-- Embeds `DBObject.s_get_col_func_query` (lines 404-406) composed with `.scalar()`:
builds `s_query(session, func(col), None, start_ts, end_ts,
col if ignore_le_zero else None)` and evaluates the aggregate over the
selected column of the matched rows. -/
def s_get_col_func_query (rows : List SRow) (fn : AggFn)
    (start_ts end_ts : Option Nat) (ignore_le_zero : LeZeroArg) : Option Rat :=
  evalAgg fn
    ((s_query SRow.ts rows start_ts end_ts
        (if ignore_le_zero.truthy then some (fun r => r.val) else none)).map SRow.val)

/-- Embeds `DBObject.s_get_col_avg` (lines 414-417): passes
`col if ignore_le_zero else None` as the `ignore_le_zero` argument. -/
def s_get_col_avg (rows : List SRow) (start_ts end_ts : Option Nat)
    (ignore_le_zero : Bool) : Option Rat :=
  s_get_col_func_query rows .avg start_ts end_ts
    (if ignore_le_zero then .pyCol else .pyNone)

/-- Embeds `DBObject.s_get_col_min` (lines 425-428): same shape as `s_get_col_avg`. -/
def s_get_col_min (rows : List SRow) (start_ts end_ts : Option Nat)
    (ignore_le_zero : Bool) : Option Rat :=
  s_get_col_func_query rows .min start_ts end_ts
    (if ignore_le_zero then .pyCol else .pyNone)

/-- Embeds `DBObject.s_get_col_max` (lines 436-439): passes the boolean
`ignore_le_zero` itself as the `ignore_le_zero` argument. -/
def s_get_col_max (rows : List SRow) (start_ts end_ts : Option Nat)
    (ignore_le_zero : Bool) : Option Rat :=
  s_get_col_func_query rows .max start_ts end_ts (.pyBool ignore_le_zero)

/-- Embeds `DBObject.s_get_col_sum` (lines 447-450): calls `s_get_col_func_query`
without the `ignore_le_zero` argument, so its default `False` applies. -/
def s_get_col_sum (rows : List SRow) (start_ts end_ts : Option Nat) : Option Rat :=
  s_get_col_func_query rows .sum start_ts end_ts (.pyBool false)

/-! ## Pure time-of-day columns (`_secs_from_time`, `time_from_secs`,
`__get_time_col_func`) -/

/-- A time-of-day value `HH:MM:SS`, as produced by parsing with the format
`'%H:%M:%S'` (line 464). -/
structure TimeOfDay where
  h : Nat
  m : Nat
  s : Nat
deriving DecidableEq, Repr

/-- Embeds `DBObject._secs_from_time` (lines 286-288):
`strftime('%s', col) - strftime('%s', '00:00')`, elapsed seconds since
midnight of the time-of-day value. -/
def secs_from_time (t : TimeOfDay) : Nat :=
  3600 * t.h + 60 * t.m + t.s

/-- Embeds `DBObject.time_from_secs` (lines 290-292): `time(value, 'unixepoch')`,
which renders a second count as a time of day (wrapping at 24h). -/
def time_from_secs (v : Nat) : TimeOfDay :=
  ⟨v / 3600 % 24, v % 3600 / 60, v % 60⟩

/-- Embeds `datetime.time.min`, the zero time-of-day `00:00:00` (line 464). -/
def time_min : TimeOfDay :=
  ⟨0, 0, 0⟩

/-- A row as seen by the time-of-day aggregate queries: the temporal column
`ts` and the selected pure-time column `tod`. -/
structure TimeRow where
  ts : Nat
  tod : TimeOfDay
deriving DecidableEq, Repr

/-- Embeds `DBObject.__get_time_col_func` (lines 458-464): queries
`time_from_secs(stat_func(secs_from_time(col)))` through `s_query` with
`ignore_le_zero_col = secs_from_time(col)` (always supplied), then parses the
scalar as `%H:%M:%S`, defaulting to `datetime.time.min` when the scalar is
`None`. -/
def get_time_col_func (rows : List TimeRow) (stat_func : AggFn)
    (start_ts end_ts : Option Nat) : TimeOfDay :=
  let matched := s_query TimeRow.ts rows start_ts end_ts
    (some (fun r => (secs_from_time r.tod : Int)))
  match evalAgg stat_func (matched.map (fun r => (secs_from_time r.tod : Int))) with
  | none => time_min
  | some v => time_from_secs v.floor.toNat

/-! ## Aggregate of per-day maxima
(`s_get_col_func_of_max_per_day_for_value` and its wrappers, lines 520-572) -/

/-- A row as seen by the per-day-max queries: temporal column `ts`, selected
column `val`, and the optional match column's value `mval`. -/
structure MRow where
  ts : Nat
  val : Int
  mval : Int
deriving DecidableEq, Repr

/-- Embeds `strftime("%j", time_col)` (line 523), the grouping key: the ordinal day
the timestamp falls on.  Timestamps are modelled as seconds on a linear time
line, so the key is the day number; this is faithful to the day-of-year key
for any query range inside a single calendar year (the key's wrap-around
across years is not at issue in any claim). -/
def strftime_j (ts : Nat) : Nat :=
  ts / 86400

/-- Maximum of a nonempty group (SQL `max` over a GROUP BY group). -/
def listMax : Int → List Int → Int
  | x, [] => x
  | x, y :: ys => listMax (Max.max x y) ys

/-- The grouped subquery of line 522-524: rows in `[start_ts, end_ts)`
grouped by `strftime("%j", time_col)`, selecting `max(col)` per group — one
value per distinct day, in order of first appearance. -/
def maxes_per_day (rows : List MRow) (start_ts end_ts : Nat) : List Int :=
  let inw := rows.filter (fun r => during r.ts start_ts end_ts)
  ((inw.map (fun r => strftime_j r.ts)).dedup).filterMap
    (fun k =>
      match (inw.filter (fun r => strftime_j r.ts == k)).map MRow.val with
      | [] => none
      | x :: xs => some (listMax x xs))

/-- Embeds `DBObject.s_get_col_func_of_max_per_day_for_value` (lines 520-527): the
outer aggregate over the per-day maxima.  Line 526 calls
`max_daily_query.filter(match_col == match_value)` but discards the returned
query, so the match restriction never reaches the executed query; the dead
computation is kept here as a discarded `let`. -/
def s_get_col_func_of_max_per_day_for_value (rows : List MRow) (stat_func : AggFn)
    (start_ts end_ts : Nat) (match_col : Option (MRow → Int))
    (match_value : Option Int) : Option Rat :=
  let _ :=
    match match_col, match_value with
    | some c, some v => rows.filter (fun r => c r == v)
    | _, _ => rows
  evalAgg stat_func (maxes_per_day rows start_ts end_ts)

/-- Embeds `DBObject.s_get_col_avg_of_max_per_day_for_value` (lines 538-540): passes
`func.avg` as the outer aggregate. -/
def s_get_col_avg_of_max_per_day_for_value (rows : List MRow)
    (match_col : Option (MRow → Int)) (match_value : Option Int)
    (start_ts end_ts : Nat) : Option Rat :=
  s_get_col_func_of_max_per_day_for_value rows .avg start_ts end_ts match_col match_value

/-- Embeds `DBObject.s_get_col_func_of_max_per_day` (lines 546-548): forwards to
`s_get_col_func_of_max_per_day_for_value` passing `func.sum` — not the
`stat_func` argument, which is ignored. -/
def s_get_col_func_of_max_per_day (rows : List MRow) (stat_func : AggFn)
    (start_ts end_ts : Nat) : Option Rat :=
  s_get_col_func_of_max_per_day_for_value rows .sum start_ts end_ts none none

/-- Embeds `DBObject.get_col_func_of_max_per_day` (lines 550-552): the managed-session
wrapper has the same shape, again passing `func.sum` instead of `stat_func`. -/
def get_col_func_of_max_per_day (rows : List MRow) (stat_func : AggFn)
    (start_ts end_ts : Nat) : Option Rat :=
  s_get_col_func_of_max_per_day_for_value rows .sum start_ts end_ts none none

/-- Embeds `DBObject.get_col_sum_of_max_per_day` (lines 558-560). -/
def get_col_sum_of_max_per_day (rows : List MRow) (start_ts end_ts : Nat) :
    Option Rat :=
  get_col_func_of_max_per_day rows .sum start_ts end_ts

/-- Embeds `DBObject.get_col_avg_of_max_per_day` (lines 562-564). -/
def get_col_avg_of_max_per_day (rows : List MRow) (start_ts end_ts : Nat) :
    Option Rat :=
  get_col_func_of_max_per_day rows .avg start_ts end_ts

/-- Embeds `DBObject.get_col_min_of_max_per_day` (lines 566-568). -/
def get_col_min_of_max_per_day (rows : List MRow) (start_ts end_ts : Nat) :
    Option Rat :=
  get_col_func_of_max_per_day rows .min start_ts end_ts

/-- Embeds `DBObject.get_col_max_of_max_per_day` (lines 570-572). -/
def get_col_max_of_max_per_day (rows : List MRow) (start_ts end_ts : Nat) :
    Option Rat :=
  get_col_func_of_max_per_day rows .max start_ts end_ts

/-! ## Upsert/match engine (`s_find_one`, `s_find_or_create`,
`update_from_dict`, `s_insert_or_update` and wrappers)

Rows of one table are association lists from column name to stored value
(`none` is SQL NULL); a `values_dict` is an association list from key to the
Python value (`none` is Python `None`).  Keys of both are unique, as for a
Python dict and a table schema. -/

/-- Stored column values.  The claims only need one scalar value domain. -/
abbrev Val := Int

/-- One table row: each column name paired with its value (`none` = NULL). -/
abbrev Row := List (String × Option Val)

/-- A `values_dict`: keys paired with values (`none` = Python `None`). -/
abbrev Dict := List (String × Option Val)

/-- The value of column `k` in row `r`; a column absent from the row reads as
NULL (a mapped instance exposes every column, defaulting to `None`). -/
def rowVal (r : Row) (k : String) : Option Val :=
  (r.lookup k).join

/-- The per-record-type data the upsert engine reads: the declared column
names, the introspected identity column `get_col_name` and temporal column
`time_col_name`, and the optional `match_col_names` list (line 29). -/
structure RecordType where
  col_names : List String
  get_col_name : String
  time_col_name : String
  match_col_names : Option (List String)

/-- The exceptions the embedded operations can raise: `KeyError` from
`values_dict[...]` on a missing key, and `MultipleResultsFound` from
`.one_or_none()`. -/
inductive DBError where
  | keyError
  | multipleResultsFound
deriving DecidableEq, Repr

/-- Embeds `Query.one_or_none()`: no row -> `None`, one row -> that row, more than
one row -> `MultipleResultsFound`. -/
def one_or_none : List Row → Except DBError (Option Row)
  | [] => .ok none
  | [r] => .ok (some r)
  | _ => .error .multipleResultsFound

/-- Embeds `cls(**values_dict)`: a new row whose columns take the dict's values,
with columns not named in the dict defaulting to NULL.  (Keys of the dicts
passed to the claims' operations name declared columns, so the `TypeError`
Python raises on an unknown keyword is not modelled.) -/
def mk_row (col_names : List String) (vd : Dict) : Row :=
  col_names.map (fun n => (n, (vd.lookup n).join))

/-- Embeds `DBObject.s_find_one` (lines 207-220).  With `match_col_names` declared,
filter each declared key: present in the dict -> `col == values_dict[key]`
(`col == None` compiles to IS NULL, so a `None` dict value matches NULL),
absent -> `col == None` (lines 211-216); otherwise filter
`time_col == values_dict[time_col_name]` (line 218, `KeyError` when the dict
lacks the key).  Line 219 then applies the temporal equality filter again,
unconditionally — also on the match-column path — before `.one_or_none()`. -/
def s_find_one (rt : RecordType) (rows : List Row) (vd : Dict) :
    Except DBError (Option Row) :=
  let step1 : Except DBError (List Row) :=
    match rt.match_col_names with
    | some names =>
      .ok (rows.filter (fun r =>
        names.all (fun n =>
          match vd.lookup n with
          | some v => rowVal r n == v
          | none => rowVal r n == none)))
    | none =>
      match vd.lookup rt.time_col_name with
      | some tv => .ok (rows.filter (fun r => rowVal r rt.time_col_name == tv))
      | none => .error .keyError
  match step1 with
  | .error e => .error e
  | .ok q1 =>
    match vd.lookup rt.time_col_name with
    | some tv => one_or_none (q1.filter (fun r => rowVal r rt.time_col_name == tv))
    | none => .error .keyError

/-- Embeds `DBObject.s_find_or_create` (lines 247-250): `session.add(cls(**vd))`
only when `s_find_one` returns `None`; exceptions propagate. -/
def s_find_or_create (rt : RecordType) (rows : List Row) (vd : Dict) :
    Except DBError (List Row) :=
  match s_find_one rt rows vd with
  | .error e => .error e
  | .ok (some _) => .ok rows
  | .ok none => .ok (rows ++ [mk_row rt.col_names vd])

/-- Embeds `set_attribute(self, key, value)` (line 134): set the named column's
value on the instance. -/
def set_attribute (r : Row) (k : String) (v : Option Val) : Row :=
  r.map (fun p => if p.1 = k then (p.1, v) else p)

/-- Embeds `DBObject.update_from_dict` (lines 129-135): for each dict entry, set the
attribute when `(not ignore_none or value is not None) and
(not ignore_zero or value != 0) and key in col_names`.  (Python's
`None != 0` is `True`, as is `none ≠ some 0` here.) -/
def update_from_dict (col_names : List String) (r : Row) (vd : Dict)
    (ignore_none ignore_zero : Bool) : Row :=
  match vd with
  | [] => r
  | kv :: rest =>
    update_from_dict col_names
      (if (!ignore_none || !(kv.2 == none)) && (!ignore_zero || !(kv.2 == some 0))
          && col_names.contains kv.1 then
        set_attribute r kv.1 kv.2
      else r)
      rest ignore_none ignore_zero

/-- Embeds `session.query(cls).get(idv)` (line 194): the row whose identity column
equals the given value. -/
def s_get (rt : RecordType) (rows : List Row) (idv : Option Val) : Option Row :=
  rows.find? (fun r => rowVal r rt.get_col_name == idv)

/-- Replace the first row matching `p` by `f` of it (the mutation
`instance.update_from_dict(...)` applied to the instance `.get` returned). -/
def replace_first (p : Row → Bool) (f : Row → Row) : List Row → List Row
  | [] => []
  | r :: rest => if p r then f r :: rest else r :: replace_first p f rest

/-- Embeds `DBObject.s_insert_or_update` (lines 258-264): look up by
`values_dict[get_col_name]` (`KeyError` when absent); if an instance is
found, `update_from_dict` it, else `session.add(cls(**vd))`.  The source
defaults are `ignore_none=True, ignore_zero=False`. -/
def s_insert_or_update (rt : RecordType) (rows : List Row) (vd : Dict)
    (ignore_none ignore_zero : Bool) : Except DBError (List Row) :=
  match vd.lookup rt.get_col_name with
  | none => .error .keyError
  | some idv =>
    if (s_get rt rows idv).isSome then
      .ok (replace_first (fun r => rowVal r rt.get_col_name == idv)
        (fun r => update_from_dict rt.col_names r vd ignore_none ignore_zero) rows)
    else
      .ok (rows ++ [mk_row rt.col_names vd])

/-- Embeds `DBObject.insert_or_update` (lines 266-270): the managed-session wrapper.
Its own default is `ignore_none=False` (line 267), and it forwards only
`ignore_none`, so `s_insert_or_update`'s `ignore_zero` default `False`
applies. -/
def insert_or_update (rt : RecordType) (rows : List Row) (vd : Dict)
    (ignore_none : Bool) : Except DBError (List Row) :=
  s_insert_or_update rt rows vd ignore_none false

/-! ## Theorems -/

/-- Claim C1 (refuted, code slip at line 219 of `src/db_object.py`): with
`match_col_names = [a, b]`, `s_find_one({a: 1})` does not succeed — line 219
unconditionally evaluates `values_dict[time_col_name]`, so the call raises
`KeyError` instead of matching the stored row `a=1, b=NULL`; further, when the
temporal value is supplied and equal, the declared match-key filtering does
match `a=1, b=NULL` and reject `a=1, b=2`, showing the intent line 219
defeats. -/
theorem c1_find_one_requires_time_value :
    s_find_one ⟨["a", "b", "t"], "t", "t", some ["a", "b"]⟩
        [[("a", some 1), ("b", none), ("t", some 100)]] [("a", some 1)]
      = .error .keyError
    ∧ s_find_one ⟨["a", "b", "t"], "t", "t", some ["a", "b"]⟩
        [[("a", some 1), ("b", none), ("t", some 100)]]
        [("a", some 1), ("t", some 100)]
      = .ok (some [("a", some 1), ("b", none), ("t", some 100)])
    ∧ s_find_one ⟨["a", "b", "t"], "t", "t", some ["a", "b"]⟩
        [[("a", some 1), ("b", some 2), ("t", some 100)]]
        [("a", some 1), ("t", some 100)]
      = .ok none :=
  ⟨rfl, rfl, rfl⟩

/-- Claim C2 (refuted, code slip at lines 548/552 of `src/db_object.py`): on
per-row values day1 = {3, 7}, day2 = {2, 9}, the sum variant of the nested
daily-max aggregate returns 16, but the avg, min and max variants also return
16 — `get_col_func_of_max_per_day` passes `func.sum` instead of its
`stat_func` argument, so the avg variant does not return 8. -/
theorem c2_daily_max_outer_fn_ignored :
    get_col_sum_of_max_per_day
        [⟨0, 3, 0⟩, ⟨1, 7, 0⟩, ⟨86400, 2, 0⟩, ⟨86401, 9, 0⟩] 0 172800 = some 16
    ∧ get_col_avg_of_max_per_day
        [⟨0, 3, 0⟩, ⟨1, 7, 0⟩, ⟨86400, 2, 0⟩, ⟨86401, 9, 0⟩] 0 172800 = some 16
    ∧ get_col_avg_of_max_per_day
        [⟨0, 3, 0⟩, ⟨1, 7, 0⟩, ⟨86400, 2, 0⟩, ⟨86401, 9, 0⟩] 0 172800 ≠ some 8
    ∧ get_col_min_of_max_per_day
        [⟨0, 3, 0⟩, ⟨1, 7, 0⟩, ⟨86400, 2, 0⟩, ⟨86401, 9, 0⟩] 0 172800 = some 16
    ∧ get_col_max_of_max_per_day
        [⟨0, 3, 0⟩, ⟨1, 7, 0⟩, ⟨86400, 2, 0⟩, ⟨86401, 9, 0⟩] 0 172800 = some 16 := by
  refine ⟨by decide, by decide, by decide, by decide, by decide⟩

/-- Claim C5 (refuted, code slip at line 526 of `src/db_object.py`): the
result of `max_daily_query.filter(match_col == match_value)` is discarded, so
rows with a different match-column value still contribute to the per-day
maxima: with day-1 rows (value 10, match 1) and (value 3, match 2), asking
for match value 2 yields 10, not 3. -/
theorem c5_match_filter_discarded :
    s_get_col_func_of_max_per_day_for_value [⟨0, 10, 1⟩, ⟨1, 3, 2⟩] .sum 0 86400
        (some MRow.mval) (some 2) = some 10
    ∧ s_get_col_func_of_max_per_day_for_value [⟨0, 10, 1⟩, ⟨1, 3, 2⟩] .sum 0 86400
        (some MRow.mval) (some 2) ≠ some 3 := by
  refine ⟨by decide, by decide⟩

/-- Counterexample to claim C3: with two primary-key columns `a`, `b` (in
that declaration order, neither time-typed), `setup_table_vars` selects `b` as
the identity column — the loop at lines 48-54 has no `break`, so the last
primary-key column wins, not the first as claimed. -/
theorem c3_counterexample_first_pk :
    setup_table_vars [⟨"a", true, false⟩, ⟨"b", true, false⟩] = (some ("b"), none)
    ∧ (some ("b") : Option String) ≠ some ("a") := by
  refine ⟨by decide, by decide⟩

/-- Counterexample to claim C8: the managed-session wrapper
`insert_or_update` (line 267) defaults `ignore_none=False` and forwards it,
so calling it without flags on an existing record overwrites column `x` with
`None` instead of leaving the stored 5 unchanged. -/
theorem c8_counterexample_wrapper_default :
    insert_or_update ⟨["id", "x"], "id", "id", none⟩
        [[("id", some 1), ("x", some 5)]] [("id", some 1), ("x", none)] false
      = .ok [[("id", some 1), ("x", none)]]
    ∧ ([("id", some 1), ("x", none)] : Row) ≠ [("id", some 1), ("x", some 5)] := by
  refine ⟨rfl, by decide⟩

/-- The first component of the `setup_table_vars` fold: the last primary-key
column seen, or the initial accumulator when there is none. -/
theorem setup_fold_fst (cols : List TblColumn) (g t : Option String) :
    (cols.foldl
      (fun (p : Option String × Option String) col =>
        if col.primary_key then
          (some col.name, if col.is_time then some col.name else p.2)
        else p)
      (g, t)).1
    = ((cols.reverse.find? (fun c => c.primary_key)).map TblColumn.name).or g := by
  induction cols generalizing g t with
  | nil => rfl
  | cons c cs ih =>
    rw [List.foldl_cons, List.reverse_cons, List.find?_append]
    rcases h : cs.reverse.find? (fun c => c.primary_key) with _ | c'
    · by_cases hc : c.primary_key
      · simp [hc, ih, h]
      · simp [hc, ih, h]
    · by_cases hc : c.primary_key
      · simp [hc, ih, h]
      · simp [hc, ih, h]

/-- The second component of the `setup_table_vars` fold: the last column seen
that is both primary-key and time-typed, or the initial accumulator. -/
theorem setup_fold_snd (cols : List TblColumn) (g t : Option String) :
    (cols.foldl
      (fun (p : Option String × Option String) col =>
        if col.primary_key then
          (some col.name, if col.is_time then some col.name else p.2)
        else p)
      (g, t)).2
    = ((cols.reverse.find? (fun c => c.primary_key && c.is_time)).map
        TblColumn.name).or t := by
  induction cols generalizing g t with
  | nil => rfl
  | cons c cs ih =>
    rw [List.foldl_cons, List.reverse_cons, List.find?_append]
    rcases h : cs.reverse.find? (fun c => c.primary_key && c.is_time) with _ | c'
    · by_cases hc : c.primary_key <;> by_cases ht : c.is_time
      · simp [hc, ht, ih, h]
      · simp [hc, ht, ih, h]
      · simp [hc, ht, ih, h]
      · simp [hc, ht, ih, h]
    · by_cases hc : c.primary_key <;> by_cases ht : c.is_time
      · simp [hc, ht, ih, h]
      · simp [hc, ht, ih, h]
      · simp [hc, ht, ih, h]
      · simp [hc, ht, ih, h]

/-- Claim C3 as amended: `setup_table_vars` selects as identity column the
LAST column flagged as a primary key (the loop has no `break`); the temporal
column is the last primary-key column that is date/time/datetime-typed, and
only if no primary-key column is time-typed does it fall back to the first
time-typed column in overall declaration order (or none). -/
theorem c3_last_pk_and_time_fallback (cols : List TblColumn) :
    (setup_table_vars cols).1
      = (cols.reverse.find? (fun c => c.primary_key)).map TblColumn.name
    ∧ (setup_table_vars cols).2
      = ((cols.reverse.find? (fun c => c.primary_key && c.is_time)).map
          TblColumn.name).or
        ((cols.find? (fun c => c.is_time)).map TblColumn.name) := by
  simp only [setup_table_vars]
  rw [setup_fold_fst, setup_fold_snd]
  simp only [Option.or_none]
  rcases h : cols.reverse.find? (fun c => c.primary_key && c.is_time) with _ | c'
  · simp [h, Option.or]
  · simp [h, Option.or]

/-- With both bounds and a positivity column, `s_query` keeps exactly the
in-window rows whose positivity column is strictly positive. -/
theorem s_query_both_pos {α : Type} (time_col : α → Nat) (rows : List α)
    (s e : Nat) (c : α → Int) :
    s_query time_col rows (some s) (some e) (some c)
      = rows.filter (fun r => during (time_col r) s e && decide (0 < c r)) := by
  simp only [s_query, List.filter_filter]
  exact List.filter_congr (fun r _ => Bool.and_comm _ _)

/-- Claim C4: for the scalar aggregates over a window, `ignore_le_zero = true`
restricts the contributing rows to those with a strictly positive column
value, and `ignore_le_zero = false` leaves every in-window row contributing;
this holds for the avg, min and max variants alike (sum takes no flag and
never filters), and avg with the flag over in-window values {-1, 0, 5, 10}
is 7.5. -/
theorem c4_positivity_filter (rows : List SRow) (s e : Nat) :
    s_get_col_avg rows (some s) (some e) true
      = evalAgg .avg ((rows.filter
          (fun r => during r.ts s e && decide (0 < r.val))).map SRow.val)
    ∧ s_get_col_avg rows (some s) (some e) false
      = evalAgg .avg ((rows.filter (fun r => during r.ts s e)).map SRow.val)
    ∧ s_get_col_min rows (some s) (some e) true
      = evalAgg .min ((rows.filter
          (fun r => during r.ts s e && decide (0 < r.val))).map SRow.val)
    ∧ s_get_col_min rows (some s) (some e) false
      = evalAgg .min ((rows.filter (fun r => during r.ts s e)).map SRow.val)
    ∧ s_get_col_max rows (some s) (some e) true
      = evalAgg .max ((rows.filter
          (fun r => during r.ts s e && decide (0 < r.val))).map SRow.val)
    ∧ s_get_col_max rows (some s) (some e) false
      = evalAgg .max ((rows.filter (fun r => during r.ts s e)).map SRow.val)
    ∧ s_get_col_sum rows (some s) (some e)
      = evalAgg .sum ((rows.filter (fun r => during r.ts s e)).map SRow.val)
    ∧ s_get_col_avg [⟨0, -1⟩, ⟨1, 0⟩, ⟨2, 5⟩, ⟨3, 10⟩] (some 0) (some 10) true
      = some ((15 : Rat) / 2) := by
  refine ⟨?_, rfl, ?_, rfl, ?_, rfl, rfl, ?_⟩
  · simp [s_get_col_avg, s_get_col_func_query, LeZeroArg.truthy, s_query_both_pos]
  · simp [s_get_col_min, s_get_col_func_query, LeZeroArg.truthy, s_query_both_pos]
  · simp [s_get_col_max, s_get_col_func_query, LeZeroArg.truthy, s_query_both_pos]
  · simp [s_get_col_avg, s_get_col_func_query, s_query, LeZeroArg.truthy, during,
      evalAgg]

/-- Claim C6: with both bounds supplied, the built query's row set is the
half-open window — a row is kept exactly when `start_ts ≤ time` and
`time < end_ts`, so a row with time equal to `start_ts` is included and a row
with time equal to `end_ts` is excluded. -/
theorem c6_half_open_window (rows : List SRow) (s e : Nat) (r : SRow) :
    r ∈ s_query SRow.ts rows (some s) (some e) none
      ↔ r ∈ rows ∧ s ≤ r.ts ∧ r.ts < e := by
  simp [s_query, during, List.mem_filter, and_assoc]

/-- Claim C7: a time-of-day aggregate whose underlying SQL aggregate yields
no value returns the zero time-of-day `00:00:00` rather than an absent value;
concretely, `avg` over an empty table returns `00:00:00` and `avg` over the
time values {01:00:00, 03:00:00} returns `02:00:00`. -/
theorem c7_time_agg_defaults_to_midnight :
    (∀ (rows : List TimeRow) (fn : AggFn) (s e : Option Nat),
      evalAgg fn
          ((s_query TimeRow.ts rows s e
              (some (fun r => (secs_from_time r.tod : Int)))).map
            (fun r => (secs_from_time r.tod : Int))) = none →
      get_time_col_func rows fn s e = time_min)
    ∧ get_time_col_func ([] : List TimeRow) .avg none none = time_min
    ∧ get_time_col_func [⟨0, ⟨1, 0, 0⟩⟩, ⟨1, ⟨3, 0, 0⟩⟩] .avg none none
      = ⟨2, 0, 0⟩ := by
  refine ⟨?_, rfl, ?_⟩
  · intro rows fn s e h
    simp only [get_time_col_func, h]
  · simp [get_time_col_func, s_query, evalAgg, secs_from_time, time_from_secs]
    have h72 : ((14400 : Rat) / 2) = 7200 := by norm_num
    rw [h72]
    decide

/-- Witness for C7: a table whose only row carries the time value `00:00:00`
feeds no value to the aggregate (the query filters it out), so the avg
operation returns the midnight default. -/
theorem c7_time_agg_defaults_to_midnight_witness :
    get_time_col_func [⟨0, ⟨0, 0, 0⟩⟩] .avg none none = time_min :=
  c7_time_agg_defaults_to_midnight.1 [⟨0, ⟨0, 0, 0⟩⟩] .avg none none rfl

/-- Filtering by `p` first does not change the result of filtering by `w`
then `p`. -/
theorem filter_pos_stable {α : Type} (rows : List α) (p w : α → Bool) :
    ((rows.filter p).filter w).filter p = (rows.filter w).filter p := by
  simp only [List.filter_filter]
  exact List.filter_congr (fun r _ => by cases p r <;> cases w r <;> rfl)

/-- Claim C10: the time-of-day aggregates unconditionally pass
`secs_from_time(col)` as the positivity column, so rows whose time value is
exactly midnight never contribute: deleting them from the table leaves every
time aggregate's result unchanged, for every aggregate function and window
(the operations take no flag that could disable this); concretely, `min` over
{00:00:00, 02:00:00} is `02:00:00`, not midnight. -/
theorem c10_time_agg_excludes_midnight :
    (∀ (rows : List TimeRow) (fn : AggFn) (s e : Option Nat),
      get_time_col_func rows fn s e
        = get_time_col_func
            (rows.filter (fun r => decide (0 < (secs_from_time r.tod : Int))))
            fn s e)
    ∧ get_time_col_func [⟨0, ⟨0, 0, 0⟩⟩, ⟨1, ⟨2, 0, 0⟩⟩] .min none none
      = ⟨2, 0, 0⟩ := by
  constructor
  · intro rows fn s e
    have key : s_query TimeRow.ts
        (rows.filter (fun r => decide (0 < (secs_from_time r.tod : Int)))) s e
        (some (fun r => (secs_from_time r.tod : Int)))
        = s_query TimeRow.ts rows s e
            (some (fun r => (secs_from_time r.tod : Int))) := by
      rcases s with _ | sv <;> rcases e with _ | ev <;>
        simp only [s_query] <;>
        first
          | exact filter_pos_stable rows _ _
          | simp [List.filter_filter]
    simp only [get_time_col_func, key]
  · simp [get_time_col_func, s_query, evalAgg, secs_from_time, time_from_secs]
    decide

/-- Claim C9: when `s_find_one` finds a matching record, `s_find_or_create`
is a no-op — the stored rows are returned unchanged, with no insert staged
and no update applied; a new record built from the values dict is staged
exactly when `s_find_one` returns nothing. -/
theorem c9_find_or_create_noop_on_match (rt : RecordType) (rows : List Row)
    (vd : Dict) :
    (∀ r, s_find_one rt rows vd = .ok (some r) →
      s_find_or_create rt rows vd = .ok rows)
    ∧ (s_find_one rt rows vd = .ok none →
      s_find_or_create rt rows vd = .ok (rows ++ [mk_row rt.col_names vd])) := by
  constructor
  · intro r h
    simp [s_find_or_create, h]
  · intro h
    simp [s_find_or_create, h]

/-- Witness for C9: a record type matching on its temporal column; with the
matching row stored, the call leaves the table unchanged, and on the empty
table it stages exactly the new row. -/
theorem c9_find_or_create_noop_on_match_witness :
    s_find_or_create ⟨["t"], "t", "t", none⟩ [[("t", some 5)]] [("t", some 5)]
      = .ok [[("t", some 5)]]
    ∧ s_find_or_create ⟨["t"], "t", "t", none⟩ [] [("t", some 5)]
      = .ok ([] ++ [mk_row ["t"] [("t", some 5)]]) :=
  ⟨(c9_find_or_create_noop_on_match ⟨["t"], "t", "t", none⟩ [[("t", some 5)]]
      [("t", some 5)]).1 [("t", some 5)] rfl,
    (c9_find_or_create_noop_on_match ⟨["t"], "t", "t", none⟩ []
      [("t", some 5)]).2 rfl⟩

/-- Setting one column leaves every other column's value unchanged. -/
theorem rowVal_set_attribute_ne (r : Row) (k2 k : String) (v : Option Val)
    (h : k2 ≠ k) : rowVal (set_attribute r k2 v) k = rowVal r k := by
  induction r with
  | nil => rfl
  | cons p rest ih =>
    rcases p with ⟨a, b⟩
    show rowVal ((if a = k2 then (a, v) else (a, b)) :: set_attribute rest k2 v) k
        = rowVal ((a, b) :: rest) k
    rcases eq_or_ne a k2 with rfl | h2
    · rw [if_pos rfl]
      simp only [rowVal, List.lookup_cons, beq_false_of_ne (Ne.symm h)]
      exact ih
    · simp only [if_neg h2, rowVal, List.lookup_cons]
      rcases eq_or_ne k a with rfl | hka
      · simp
      · simp only [beq_false_of_ne hka]
        exact ih

/-- Applying `update_from_dict` with a dict none of whose keys is `k` leaves column
`k`'s value unchanged. -/
theorem rowVal_update_from_dict_not_key (cols : List String) (r : Row)
    (vd : Dict) (i z : Bool) (k : String) (h : ∀ q ∈ vd, q.1 ≠ k) :
    rowVal (update_from_dict cols r vd i z) k = rowVal r k := by
  induction vd generalizing r with
  | nil => rfl
  | cons q rest ih =>
    have hq : q.1 ≠ k := h q (by simp)
    have hrest : ∀ p ∈ rest, p.1 ≠ k := fun p hp => h p (by simp [hp])
    simp only [update_from_dict]
    rw [ih _ hrest]
    split
    · exact rowVal_set_attribute_ne r q.1 k q.2 hq
    · rfl

/-- With `ignore_none = true`, an entry of the dict whose value is `None`
leaves the corresponding column value of the record unchanged. -/
theorem rowVal_update_from_dict_none_entry (cols : List String) (r : Row)
    (vd : Dict) (k : String) (hk : vd.lookup k = some none)
    (hnd : (vd.map Prod.fst).Nodup) :
    rowVal (update_from_dict cols r vd true false) k = rowVal r k := by
  induction vd generalizing r with
  | nil => simp at hk
  | cons q rest ih =>
    rcases q with ⟨k1, v1⟩
    have hndc : (k1 :: rest.map Prod.fst).Nodup := by
      rw [List.map_cons] at hnd
      exact hnd
    rcases eq_or_ne k k1 with rfl | hne
    · have hv : v1 = none := by
        simpa [List.lookup_cons] using hk
      subst hv
      have hnotin : ∀ p ∈ rest, p.1 ≠ k := by
        intro p hp hpk
        exact (List.nodup_cons.mp hndc).1 (hpk ▸ List.mem_map_of_mem Prod.fst hp)
      exact rowVal_update_from_dict_not_key cols r rest true false k hnotin
    · have hk' : rest.lookup k = some none := by
        simpa [List.lookup_cons, beq_false_of_ne hne] using hk
      have hnd' : (rest.map Prod.fst).Nodup := (List.nodup_cons.mp hndc).2
      simp only [update_from_dict]
      rw [ih _ hk' hnd']
      split
      · exact rowVal_set_attribute_ne r k1 k v1 (Ne.symm hne)
      · rfl

/-- Claim C8 as amended: it is the session-scoped `s_insert_or_update`
(line 259) whose defaults are `ignore_none=True, ignore_zero=False`, so
calling it without flags merges with None-valued dict entries leaving the
corresponding existing column values unchanged; the managed-session wrapper
`insert_or_update` (line 267), by contrast, defaults `ignore_none=False` and
forwards it, so calling the wrapper without flags overwrites those columns
with None (see the counterexample theorem). -/
theorem c8_session_default_ignores_none (rt : RecordType) (r : Row) (vd : Dict)
    (k : String)
    (hfound : vd.lookup rt.get_col_name = some (rowVal r rt.get_col_name))
    (hk : vd.lookup k = some none) (hnd : (vd.map Prod.fst).Nodup) :
    s_insert_or_update rt [r] vd true false
      = .ok [update_from_dict rt.col_names r vd true false]
    ∧ rowVal (update_from_dict rt.col_names r vd true false) k = rowVal r k := by
  constructor
  · simp [s_insert_or_update, hfound, s_get, replace_first]
  · exact rowVal_update_from_dict_none_entry rt.col_names r vd k hk hnd

/-- Witness for C8 (amended): an existing record `{id: 1, x: 5}` merged via
the session-scoped call with dict `{id: 1, x: None}` keeps `x = 5`. -/
theorem c8_session_default_ignores_none_witness :
    s_insert_or_update ⟨["id", "x"], "id", "id", none⟩
        [[("id", some 1), ("x", some 5)]] [("id", some 1), ("x", none)] true false
      = .ok [update_from_dict ["id", "x"] [("id", some 1), ("x", some 5)]
          [("id", some 1), ("x", none)] true false]
    ∧ rowVal (update_from_dict ["id", "x"] [("id", some 1), ("x", some 5)]
        [("id", some 1), ("x", none)] true false) "x"
      = rowVal [("id", some 1), ("x", some 5)] "x" :=
  c8_session_default_ignores_none ⟨["id", "x"], "id", "id", none⟩
    [("id", some 1), ("x", some 5)] [("id", some 1), ("x", none)] "x"
    rfl rfl (by decide)

end DbObject
